import Mathlib

/-!
Verification of bapsfdaq_motion core components

Shallow embedding of the core algorithms of the `bapsf_motion` package:

* `transform/lapd.py` — the `LaPDXYTransform` coordinate transform
  (validation, motion-space → drive matrices and their inverses);
* `motion_builder/layers/regular_grid.py` — `GridLayer` and
  `GridCNStepLayer` (validation and point-matrix generation);
* `controllers/motor.py` — `Motor` status decoding, status-change
  notification, and the send/reconnect protocol;
* `motion_list/exclusions/lapd.py` — `LaPDXYExclusion` input validation.

Discrete/ordering logic is embedded over `ℚ`, `ℤ` and `Bool` so that it is
executable; the trigonometric transform kinematics are embedded over `ℝ`.
-/

namespace BapsfMotion

/-! ## numpy dtype model

`GridLayer._validate_limits` / `_validate_npoints` branch on the numpy
dtype of their input array (`np.issubdtype(..., np.floating)` and
`np.issubdtype(..., np.integer)`).  A dtype is a meta-property of the
array, so it is carried as an explicit parameter here.  No numpy dtype is
simultaneously a floating and an integer dtype. -/

inductive NpDtype where
  | float64
  | int32
  | int64
  deriving DecidableEq, Repr

def NpDtype.isFloating : NpDtype → Bool
  | .float64 => true
  | .int32 => false
  | .int64 => false

def NpDtype.isInteger : NpDtype → Bool
  | .float64 => false
  | .int32 => true
  | .int64 => true

/-! ## GridLayer (motion_builder/layers/regular_grid.py) -/

/-- Insert into an ascending list (helper for modelling `ndarray.sort`). -/
def insertAsc (x : ℚ) : List ℚ → List ℚ
  | [] => [x]
  | y :: ys => if x ≤ y then x :: y :: ys else y :: insertAsc x ys

/-- Ascending sort of one row, modelling `limits.sort(axis=1)` applied to a
single `(min, max)` row. -/
def sortRow (xs : List ℚ) : List ℚ := xs.foldr insertAsc []

/-- Model of `GridLayer._validate_limits`, for a 2-D input array.

A 2-D float/int numpy array is modelled as a rectangular `List (List ℚ)`
together with its dtype.  The checks are translated in source order:

1. `if not np.issubdtype(limits.dtype, np.floating) or
        not np.issubdtype(limits.dtype, np.integer): raise ValueError`
   (the guard exactly as written in the source — its two negated
   disjuncts can never both be false, since no dtype is both floating
   and integer);
2. `limits.ndim not in (1, 2)` — always false here since the input type
   is 2-D (the `ndim == 1` input branch of the source is not modelled;
   every claim checked below passes a 2-D `limits`);
3. `limits.ndim == 2 and limits.shape[1] != 2`;
4. `limits.ndim == 2 and limits.shape[0] not in (1, mspace_ndims)`;
5. `np.any(limits[..., 0] == limits[..., 1])`;
then `limits.sort(axis=1)` and the single-row broadcast across all
motion-space dimensions. -/
def validate_limits (dt : NpDtype) (mspace_ndims : Nat) (limits : List (List ℚ)) :
    Except String (List (List ℚ)) :=
  if !dt.isFloating || !dt.isInteger then
    .error "limits dtype: expected an integer or float dtype"
  else if !(limits.all fun row => row.length == 2) then
    .error "Needs to be a 2-element list"
  else if !(limits.length == 1 || limits.length == mspace_ndims) then
    .error "The number of specified limits needs to be one or equal to the dimensionality"
  else if limits.any fun row => row.getD 0 0 == row.getD 1 0 then
    .error "limits is an array of min max pairs, some pairs are equal"
  else
    let sorted := limits.map sortRow
    if sorted.length == 1 then
      .ok (List.replicate mspace_ndims (sorted.getD 0 []))
    else
      .ok sorted

/-- Model of `GridLayer._validate_npoints` (1-D integer array input). -/
def validate_npoints (dt : NpDtype) (mspace_ndims : Nat) (npoints : List ℤ) :
    Except String (List ℤ) :=
  if !dt.isInteger then
    .error "npoints dtype: expected an integer dtype"
  else if !(npoints.length == 1 || npoints.length == mspace_ndims) then
    .error "npoints must be of size 1 or equal to the dimensionality"
  else if npoints.any (· ≤ 0) then
    .error "All elements of npoints must be a positive integer"
  else if npoints.length == 1 then
    .ok (List.replicate mspace_ndims (npoints.getD 0 0))
  else
    .ok npoints

/-- Model of `np.linspace(start, stop, num)` with `endpoint=True` (the default used
by the source): `num = 1` gives `[start]`, otherwise `num` evenly spaced
samples from `start` to `stop` inclusive. -/
def np_linspace (start stop : ℚ) (num : Nat) : List ℚ :=
  if num == 1 then [start]
  else (List.range num).map fun i => start + (stop - start) * i / ((num : ℚ) - 1)

/-- The per-axis sample positions built by `GridLayer._generate_point_matrix`:
for each `(lims, num)` pair, collapse to one point when `lims[0] == lims[1]`
and otherwise `np.linspace(lims[0], lims[1], num)`. -/
def grid_axes (limits : List (List ℚ)) (npoints : List ℤ) : List (List ℚ) :=
  List.zipWith
    (fun lims num =>
      let lo := lims.getD 0 0
      let hi := lims.getD 1 0
      let num' : Nat := if lo == hi then 1 else num.toNat
      np_linspace lo hi num')
    limits npoints

/-- Cartesian product with axis 0 varying slowest.  This is the row-major
(`indexing="ij"`) flattening of the `np.meshgrid` stack built by
`_generate_point_matrix`: entry `[i₁, …, i_N]` of the meshgrid stack is the
length-`N` trailing vector `[axs[0][i₁], …, axs[N-1][i_N]]`, i.e. axis `k`
varies along dimension `k` of the output array. -/
def cart_prod : List (List ℚ) → List (List ℚ)
  | [] => [[]]
  | ax :: rest => ax.flatMap fun a => (cart_prod rest).map fun p => a :: p

/-- Model of `GridLayer._generate_point_matrix` as the row-major list of its
trailing length-`N` point vectors. -/
def generate_point_matrix (limits : List (List ℚ)) (npoints : List ℤ) :
    List (List ℚ) :=
  cart_prod (grid_axes limits npoints)

/-- The limits derived by `GridCNStepLayer._validate_inputs`:
`limits[..., 1] = 0.5 * (npoints - 1) * step_size`,
`limits[..., 0] = -limits[..., 1]`, then `limits = limits + center[..., None]`. -/
def cnstep_derive_limits (center : List ℚ) (npoints : List ℤ) (step_size : List ℚ) :
    List (List ℚ) :=
  List.zipWith
    (fun c ns =>
      let half := (1 / 2 : ℚ) * ((ns.1 : ℚ) - 1) * ns.2
      [c - half, c + half])
    center (npoints.zip step_size)

/-! ## Motor status decoding (controllers/motor.py) -/

/-- The boolean status flags decoded by `Motor.retrieve_motor_status`. -/
structure MotorStatusFlags where
  alarm : Bool
  enabled : Bool
  fault : Bool
  moving : Bool
  homing : Bool
  jogging : Bool
  motion_in_progress : Bool
  in_position : Bool
  stopping : Bool
  waiting : Bool
  deriving DecidableEq, Repr

/-- The null status `retrieve_motor_status` starts from (all flags false). -/
def nullStatusFlags : MotorStatusFlags :=
  { alarm := false, enabled := false, fault := false, moving := false
    homing := false, jogging := false, motion_in_progress := false
    in_position := false, stopping := false, waiting := false }

/-- One step of the letter → flag decode loop in `retrieve_motor_status`. -/
def decodeStatusLetter (st : MotorStatusFlags) (c : Char) : MotorStatusFlags :=
  if c = 'A' then { st with alarm := true }
  else if c = 'D' ∨ c = 'R' then { st with enabled := c = 'R' }
  else if c = 'E' then { st with fault := true }
  else if c = 'F' then { st with moving := true }
  else if c = 'H' then { st with homing := true }
  else if c = 'J' then { st with jogging := true }
  else if c = 'M' then { st with motion_in_progress := true }
  else if c = 'P' then { st with in_position := true }
  else if c = 'S' then { st with stopping := true }
  else if c = 'T' ∨ c = 'W' then { st with waiting := true }
  else st

/-- The full letter-loop decode of a raw `RS` status string. -/
def decodeStatus (rtn : String) : MotorStatusFlags :=
  rtn.toList.foldl decodeStatusLetter nullStatusFlags

/-- Result of one `retrieve_motor_status` call: the decoded flags, the
polled position, the alarm message folded into the same single status
update when the alarm flag is set, and the number of alarm-detail
lookups (`retrieve_motor_alarm` calls) performed. -/
structure RetrieveStatusResult where
  flags : MotorStatusFlags
  position : ℤ
  alarm_message : Option String
  alarmLookups : Nat
  deriving DecidableEq, Repr

/-- Model of `Motor.retrieve_motor_status`, abstracted over the device replies: the
status string `rtn`, the polled position, and the alarm message the
alarm-detail lookup would return.  The alarm lookup is performed exactly
when the decoded alarm flag is set, and its result is folded into the one
final status update. -/
def retrieve_motor_status (rtn : String) (pos : ℤ) (alarmMsg : String) :
    RetrieveStatusResult :=
  let st := decodeStatus rtn
  { flags := st
    position := pos
    alarm_message := if st.alarm then some alarmMsg else none
    alarmLookups := if st.alarm then 1 else 0 }

/-! ## Status-change notification (Motor.update_status / SimpleSignal.emit) -/

/-- A Python value stored in the motor status dict. -/
inductive PyVal where
  | pynone
  | pybool (b : Bool)
  | pyint (n : ℤ)
  | pystr (s : String)
  deriving DecidableEq, Repr

/-- A Python dict of status fields, as an association list with unique
keys in insertion order. -/
abbrev StatusDict := List (String × PyVal)

/-- Python `d[k]` dict lookup. -/
def dictGet (d : StatusDict) (k : String) : Option PyVal :=
  (d.find? fun kv => kv.1 == k).map (·.2)

/-- Python `{**old, **upd}`: keys of `old` in order with updated values,
then the new keys of `upd` in order. -/
def dictMerge (old upd : StatusDict) : StatusDict :=
  (old.map fun kv =>
    (kv.1, match dictGet upd kv.1 with
      | some v => v
      | none => kv.2))
  ++ upd.filter fun kv => (dictGet old kv.1).isNone

/-- The `changed` dict computed by `Motor.update_status`: the items of the
merged status whose key is absent from the old status or mapped to a
different value there. -/
def changedFields (old upd : StatusDict) : StatusDict :=
  (dictMerge old upd).filter fun kv =>
    match dictGet old kv.1 with
    | none => true
    | some v => decide (v ≠ kv.2)

/-- Result of `Motor.update_status`: the new status dict and the list of
payloads passed to `status_changed.emit` (the source emits the constant
`True`). -/
structure UpdateStatusResult where
  newStatus : StatusDict
  emitted : List Bool
  deriving DecidableEq, Repr

/-- Model of `Motor.update_status(**values)`: merge, diff, and emit
`status_changed.emit(True)` once when the diff is non-empty. -/
def update_status (old upd : StatusDict) : UpdateStatusResult :=
  let newStatus := dictMerge old upd
  let changed := changedFields old upd
  { newStatus := newStatus
    emitted := if changed.isEmpty then [] else [true] }

/-! ## Foreground send / reconnect (Motor._send_raw_command, Motor.connect) -/

/-- A connection-level error (`TimeoutError`, `InterruptedError`,
`ConnectionRefusedError`, `socket.timeout`, `ConnectionError`). -/
inductive NetErr where
  | timeout
  | refused
  | interrupted
  | reset
  deriving DecidableEq, Repr

/-- The setting `Motor._settings["max_connection_attempts"]`. -/
def maxConnectionAttempts : Nat := 3

/-- The retry loop of `Motor.connect`: `for _count in range(allowed)`,
where `outcome i` is the result of the `i`-th socket-connect attempt,
translated as structural recursion over the list of remaining iteration
indices.  On success the loop returns; on a failing attempt it continues
while another iteration remains (`_count + 1 < allowed`) and re-raises
the last error otherwise.  (If the loop runs out of iterations without
an attempt, Python falls through and returns `None`.) -/
def connectFor (outcome : Nat → Except NetErr Unit) : List Nat → Except NetErr Unit
  | [] => .ok ()
  | [i] =>
    match outcome i with
    | .ok _ => .ok ()
    | .error e => .error e
  | i :: j :: rest =>
    match outcome i with
    | .ok _ => .ok ()
    | .error _ => connectFor outcome (j :: rest)

/-- Model of `Motor.connect`, with its configured attempt bound
`range(max_connection_attempts)`. -/
def motor_connect (outcome : Nat → Except NetErr Unit) : Except NetErr Unit :=
  connectFor outcome (List.range maxConnectionAttempts)

/-- The environment a `_send_raw_command` call runs against: the outcome
of the first `socket.send`, the outcomes of the reconnect attempts, the
outcome of the re-sent request, and the reply that `recv` would return. -/
structure SendEnv where
  firstSend : Except NetErr Unit
  connectOutcome : Nat → Except NetErr Unit
  resend : Except NetErr Unit
  recvData : String

/-- Result of `_send_raw_command`: the reply or the propagated error,
with the number of reconnect-and-resend cycles performed. -/
structure SendRawResult where
  result : Except NetErr String
  reconnectCycles : Nat

/-- Model of `Motor._send_raw_command`: `try: self.socket.send(cmd)` — on a
connection error mark disconnected, `self.connect()` (which may itself
raise after exhausting its attempts) and re-send once, outside any `try`,
so a failure of the re-sent request propagates to the caller. -/
def send_raw_command (env : SendEnv) : SendRawResult :=
  match env.firstSend with
  | .ok _ => { result := .ok env.recvData, reconnectCycles := 0 }
  | .error _ =>
    match motor_connect env.connectOutcome with
    | .error e => { result := .error e, reconnectCycles := 1 }
    | .ok _ =>
      match env.resend with
      | .error e => { result := .error e, reconnectCycles := 1 }
      | .ok _ => { result := .ok env.recvData, reconnectCycles := 1 }

/-! ## LaPDXYExclusion input validation (motion_list/exclusions/lapd.py) -/

/-- The `_port_location_to_angle` compass-token table (keys lowercase). -/
def port_location_to_angle : List (String × ℚ) :=
  [("e", 0), ("east", 0), ("t", 90), ("top", 90),
   ("w", 180), ("west", 180), ("b", 270), ("bottom", 270), ("bot", 270)]

/-- Python `str.lower()` / `str.casefold()` restricted to the ASCII
tokens the compass table uses, modelled character by character. -/
def strLower (s : String) : String := String.mk (s.data.map Char.toLower)

/-- A `port_location` argument: a compass token or an explicit angle. -/
inductive PortLocation where
  | token (s : String)
  | angle (q : ℚ)
  deriving DecidableEq, Repr

/-- The validated inputs stored by `LaPDXYExclusion._validate_inputs`
(the cone-related entries are `None` when `include_cone` is false). -/
structure LaPDXYExclusionInputs where
  diameter : ℚ
  pivot_radius : Option ℚ
  port_location : Option ℚ
  cone_full_angle : Option ℚ
  deriving DecidableEq, Repr

/-- Model of `LaPDXYExclusion._validate_inputs`, translated in source order:
take `abs` of `diameter`; when `include_cone` is false, null out the cone
parameters and return; otherwise take `abs` of `pivot_radius`, then run
the cone-angle guard exactly as written in the source —
`0 <= self.cone_full_angle >= 180` is a Python chained comparison,
i.e. it raises iff `0 ≤ cone ∧ cone ≥ 180` — then translate a string
`port_location` through the compass table (rejecting unknown tokens) and
require the resulting numeric angle to lie in `(-180, 360)`. -/
def validate_lapdxy_exclusion (diameter pivot_radius : ℚ) (port : PortLocation)
    (cone_full_angle : ℚ) (include_cone : Bool) :
    Except String LaPDXYExclusionInputs :=
  let d := |diameter|
  if !include_cone then
    .ok { diameter := d, pivot_radius := none, port_location := none,
          cone_full_angle := none }
  else
    let pr := |pivot_radius|
    if 0 ≤ cone_full_angle ∧ cone_full_angle ≥ 180 then
      .error "cone_full_angle rejected"
    else
      let portNum : Except String ℚ :=
        match port with
        | .token s =>
          match (port_location_to_angle.find? fun kv => kv.1 == strLower s).map (·.2) with
          | none => .error "unknown port_location token"
          | some a => .ok a
        | .angle q => .ok q
      match portNum with
      | .error e => .error e
      | .ok a =>
        if !(decide (-180 < a) && decide (a < 360)) then
          .error "The angular port location is out of the range -180 to 360 degrees"
        else
          .ok { diameter := d, pivot_radius := some pr, port_location := some a,
                cone_full_angle := some cone_full_angle }

/-! ## LaPDXYTransform input validation (transform/lapd.py)

`_validate_inputs` checks the three distance keywords and the two
polarity keywords.  The ordering/absolute-value logic is embedded over
`ℚ` so it is executable; a numeric (`float`/`int`) input is assumed, as
the claims under check only concern numeric inputs. -/

/-- The coercion `_validate_inputs` applies to each of `pivot_to_center`,
`pivot_to_drive` and `probe_axis_offset`: a negative value is replaced by
`np.abs(val)` (with a warning), any other value is kept. -/
def coerce_distance (v : ℚ) : ℚ := if v < 0 then |v| else v

/-- The polarity check: a 2-element array (modelled by the product type)
with `np.all(np.abs(polarity) == 1)`. -/
def polarity_ok (p : ℚ × ℚ) : Bool := |p.1| == 1 && |p.2| == 1

/-- The validated inputs stored by `LaPDXYTransform._validate_inputs`. -/
structure LaPDXYValidatedInputs where
  pivot_to_center : ℚ
  pivot_to_drive : ℚ
  probe_axis_offset : ℚ
  drive_polarity : ℚ × ℚ
  mspace_polarity : ℚ × ℚ
  deriving DecidableEq, Repr

/-- Model of `LaPDXYTransform._validate_inputs` for numeric inputs: coerce each of
the three distances (never raising), then validate both polarity
vectors. -/
def validate_lapdxy_transform (ptc p2d pao : ℚ) (dpol mpol : ℚ × ℚ) :
    Except String LaPDXYValidatedInputs :=
  let ptc' := coerce_distance ptc
  let p2d' := coerce_distance p2d
  let pao' := coerce_distance pao
  if !polarity_ok dpol then
    .error "drive_polarity must be a 2-element array of 1 or -1"
  else if !polarity_ok mpol then
    .error "mspace_polarity must be a 2-element array of 1 or -1"
  else
    .ok { pivot_to_center := ptc', pivot_to_drive := p2d',
          probe_axis_offset := pao', drive_polarity := dpol,
          mspace_polarity := mpol }

/-! ## LaPDXYTransform kinematics (transform/lapd.py)

The matrix-valued maps `_matrix_to_drive` and `_matrix_to_motion_space`
are embedded over `ℝ` for a single point `(x, y)` (the source broadcasts
the identical computation over a batch).  A 3×3 homogeneous matrix is a
record of nine real entries with explicit multiplication, so every proof
can unfold it syntactically. -/

noncomputable section

/-- A 3×3 real matrix, row major: entry `aij` sits at row `i`, column `j`. -/
structure Mat3 where
  a00 : ℝ
  a01 : ℝ
  a02 : ℝ
  a10 : ℝ
  a11 : ℝ
  a12 : ℝ
  a20 : ℝ
  a21 : ℝ
  a22 : ℝ

/-- Matrix product (`np.matmul` on 3×3 blocks). -/
def Mat3.mul (A B : Mat3) : Mat3 :=
  { a00 := A.a00 * B.a00 + A.a01 * B.a10 + A.a02 * B.a20
    a01 := A.a00 * B.a01 + A.a01 * B.a11 + A.a02 * B.a21
    a02 := A.a00 * B.a02 + A.a01 * B.a12 + A.a02 * B.a22
    a10 := A.a10 * B.a00 + A.a11 * B.a10 + A.a12 * B.a20
    a11 := A.a10 * B.a01 + A.a11 * B.a11 + A.a12 * B.a21
    a12 := A.a10 * B.a02 + A.a11 * B.a12 + A.a12 * B.a22
    a20 := A.a20 * B.a00 + A.a21 * B.a10 + A.a22 * B.a20
    a21 := A.a20 * B.a01 + A.a21 * B.a11 + A.a22 * B.a21
    a22 := A.a20 * B.a02 + A.a21 * B.a12 + A.a22 * B.a22 }

/-- Model of `np.diag([a, b, 1.0])`, the polarity-correction matrices
`T_dpolarity` / `T_mpolarity`. -/
def diagMat3 (a b : ℝ) : Mat3 :=
  { a00 := a, a01 := 0, a02 := 0
    a10 := 0, a11 := b, a12 := 0
    a20 := 0, a21 := 0, a22 := 1 }

/-- Modelled from the spec: the repository file `transform/base.py`
(class `BaseTransform`) is not under `src/`; per the spec, the transform
"exposes two pure matrix-valued functions producing a 3×3 homogeneous
transform per point" that is applied to the point in homogeneous
coordinates, so `to_drive` / `to_motion_space` apply the per-point matrix
to `(x, y, 1)` and read back the first two components. -/
def Mat3.applyHom (M : Mat3) (x y : ℝ) : ℝ × ℝ :=
  (M.a00 * x + M.a01 * y + M.a02, M.a10 * x + M.a11 * y + M.a12)

/-- The configuration of a `LaPDXYTransform` (post-validation values). -/
structure LaPDXYTransform where
  pivot_to_center : ℝ
  pivot_to_drive : ℝ
  probe_axis_offset : ℝ
  drive_polarity : ℝ × ℝ
  mspace_polarity : ℝ × ℝ

/-- Validity of a polarity vector after `_validate_inputs`: both entries
are `+1` or `-1`. -/
def PolarityValid (p : ℝ × ℝ) : Prop :=
  (p.1 = 1 ∨ p.1 = -1) ∧ (p.2 = 1 ∨ p.2 = -1)

/-- The probe-shaft angle computed inside `_matrix_to_drive`:
`tan_theta = points[..., 1] / (points[..., 0] + pivot_to_center)` on the
mspace-polarity-adjusted point, then `theta = -np.arctan(tan_theta)` —
the one-argument arctangent of the quotient. -/
def thetaToDrive (T : LaPDXYTransform) (x y : ℝ) : ℝ :=
  let X := T.mspace_polarity.1 * x;
  let Y := T.mspace_polarity.2 * y;
  -Real.arctan (Y / (X + T.pivot_to_center))

/-- Model of `LaPDXYTransform._matrix_to_drive` for one motion-space point:
`T_dpolarity @ (T0 @ T_mpolarity)` with
`T0[0, 2] = sqrt(y² + (pivot_to_center + x)²) - pivot_to_center`,
`T0[1, 2] = pivot_to_drive * tan(theta)
            + probe_axis_offset * (1 - 1/cos(theta))`,
`T0[2, 2] = 1` (all other `T0` entries zero), computed on the
mspace-polarity-adjusted coordinates. -/
def matrix_to_drive (T : LaPDXYTransform) (x y : ℝ) : Mat3 :=
  let X := T.mspace_polarity.1 * x
  let Y := T.mspace_polarity.2 * y
  let theta := thetaToDrive T x y
  let T0 : Mat3 :=
    { a00 := 0, a01 := 0
      a02 := Real.sqrt (Y ^ 2 + (T.pivot_to_center + X) ^ 2) - T.pivot_to_center
      a10 := 0, a11 := 0
      a12 := T.pivot_to_drive * Real.tan theta
             + T.probe_axis_offset * (1 - 1 / Real.cos theta)
      a20 := 0, a21 := 0, a22 := 1 }
  (diagMat3 T.drive_polarity.1 T.drive_polarity.2).mul
    (T0.mul (diagMat3 T.mspace_polarity.1 T.mspace_polarity.2))

/-- The angle computed inside `_matrix_to_motion_space`:
`sine_alpha = probe_axis_offset
              / sqrt(pivot_to_drive² + (-probe_axis_offset + e1)²)`,
`tan_beta = (-probe_axis_offset + e1) / -pivot_to_drive`,
`theta = arctan(tan_beta) - arcsin(sine_alpha)`, on the
drive-polarity-adjusted point. -/
def thetaToMotionSpace (T : LaPDXYTransform) (e0 e1 : ℝ) : ℝ :=
  let P1 := T.drive_polarity.2 * e1
  let sine_alpha := T.probe_axis_offset /
    Real.sqrt (T.pivot_to_drive ^ 2 + (-T.probe_axis_offset + P1) ^ 2)
  let tan_beta := (-T.probe_axis_offset + P1) / -T.pivot_to_drive
  Real.arctan tan_beta - Real.arcsin sine_alpha

/-- Model of `LaPDXYTransform._matrix_to_motion_space` for one drive point:
`T_mpolarity @ (T0 @ T_dpolarity)` with
`T0[0, 0] = cos(theta)`, `T0[0, 2] = -pivot_to_center*(1 - cos(theta))`,
`T0[1, 0] = sin(theta)`, `T0[1, 2] = pivot_to_center*sin(theta)`,
`T0[2, 2] = 1` (all other `T0` entries zero). -/
def matrix_to_motion_space (T : LaPDXYTransform) (e0 e1 : ℝ) : Mat3 :=
  let theta := thetaToMotionSpace T e0 e1
  let T0 : Mat3 :=
    { a00 := Real.cos theta, a01 := 0
      a02 := -T.pivot_to_center * (1 - Real.cos theta)
      a10 := Real.sin theta, a11 := 0
      a12 := T.pivot_to_center * Real.sin theta
      a20 := 0, a21 := 0, a22 := 1 }
  (diagMat3 T.mspace_polarity.1 T.mspace_polarity.2).mul
    (T0.mul (diagMat3 T.drive_polarity.1 T.drive_polarity.2))

/-- Model of `to_drive`: apply the per-point matrix to the homogeneous point. -/
def to_drive (T : LaPDXYTransform) (x y : ℝ) : ℝ × ℝ :=
  (matrix_to_drive T x y).applyHom x y

/-- Model of `to_motion_space`: apply the per-point matrix to the homogeneous
point. -/
def to_motion_space (T : LaPDXYTransform) (e0 e1 : ℝ) : ℝ × ℝ :=
  (matrix_to_motion_space T e0 e1).applyHom e0 e1

/-- The two-argument, quadrant-aware arctangent, defined following the
spec's words (for comparison with the code's one-argument `np.arctan`):
`atan2 y x` is the angle of the point `(x, y)`, equal to `arctan (y/x)`
in the right half plane, shifted by `±π` in the left half plane, and
`±π/2` on the vertical axis. -/
def atan2 (y x : ℝ) : ℝ :=
  if 0 < x then Real.arctan (y / x)
  else if x < 0 ∧ 0 ≤ y then Real.arctan (y / x) + Real.pi
  else if x < 0 ∧ y < 0 then Real.arctan (y / x) - Real.pi
  else if x = 0 ∧ 0 < y then Real.pi / 2
  else if x = 0 ∧ y < 0 then -(Real.pi / 2)
  else 0

end


/-! ## Helper lemmas -/

/-- Small evaluation facts used to run the grid generator on concrete
inputs. -/
theorem list_range_two : List.range 2 = [0, 1] := rfl

theorem list_range_three : List.range 3 = [0, 1, 2] := rfl

theorem int_toNat_two : Int.toNat 2 = 2 := rfl

theorem int_toNat_three : Int.toNat 3 = 3 := rfl

/-- One decode step changes the alarm flag exactly on the letter `A`. -/
theorem decodeStatusLetter_alarm (st : MotorStatusFlags) (c : Char) :
    (decodeStatusLetter st c).alarm = (st.alarm || decide (c = 'A')) := by
  unfold decodeStatusLetter
  by_cases hA : c = 'A'
  · simp [hA]
  · rw [if_neg hA]
    split_ifs <;> simp [hA]

/-- The decode loop sets the alarm flag iff the character list contains
`A`. -/
theorem foldl_decode_alarm (l : List Char) (st : MotorStatusFlags) :
    (l.foldl decodeStatusLetter st).alarm = (st.alarm || decide ('A' ∈ l)) := by
  induction l generalizing st with
  | nil => simp
  | cons c cs ih =>
    simp only [List.foldl_cons, ih, decodeStatusLetter_alarm, List.mem_cons]
    by_cases h : c = 'A' <;> simp [h, eq_comm, Bool.or_assoc]

/-- The decode `decodeStatus` reports an alarm iff the status string contains `A`. -/
theorem decodeStatus_alarm (s : String) :
    (decodeStatus s).alarm = decide ('A' ∈ s.toList) := by
  simp [decodeStatus, foldl_decode_alarm, nullStatusFlags]

/-- The `changed` filter of `update_status` is empty exactly when the old
status already held every merged field value. -/
theorem changedFields_eq_nil_iff (old upd : StatusDict) :
    changedFields old upd = [] ↔
      ∀ kv ∈ dictMerge old upd, dictGet old kv.1 = some kv.2 := by
  unfold changedFields
  rw [List.filter_eq_nil_iff]
  constructor
  · intro h kv hkv
    have hh := h kv hkv
    cases hg : dictGet old kv.1 with
    | none => rw [hg] at hh; simp at hh
    | some v =>
      rw [hg] at hh
      have hv : v = kv.2 := by simpa using hh
      exact congrArg some hv
  · intro h kv hkv
    rw [h kv hkv]
    simp

/-- The `Motor.connect` retry loop consults only the attempt indices in
its iteration list: its result is unchanged under an attempt oracle that
agrees on those indices. -/
theorem connectFor_congr (o o' : Nat → Except NetErr Unit) (l : List Nat)
    (h : ∀ i ∈ l, o i = o' i) :
    connectFor o l = connectFor o' l := by
  induction l with
  | nil => rfl
  | cons i rest ih =>
    cases rest with
    | nil =>
      simp only [connectFor]
      rw [h i (by simp)]
    | cons j rest' =>
      simp only [connectFor]
      rw [h i (by simp)]
      cases o' i with
      | ok u => rfl
      | error e => exact ih fun k hk => h k (List.mem_cons_of_mem i hk)

/-- Bound of `Motor.connect` by `max_connection_attempts`: it never
consults an attempt outcome with index `≥ 3`. -/
theorem motor_connect_congr (o o' : Nat → Except NetErr Unit)
    (h : ∀ i, i < maxConnectionAttempts → o i = o' i) :
    motor_connect o = motor_connect o' :=
  connectFor_congr o o' _ fun i hi => h i (List.mem_range.mp hi)

/-- When all `max_connection_attempts = 3` attempts fail,
`Motor.connect` raises the error of the last attempt. -/
theorem motor_connect_all_fail (o : Nat → Except NetErr Unit) (err : Nat → NetErr)
    (h : ∀ i, i < maxConnectionAttempts → o i = .error (err i)) :
    motor_connect o = .error (err 2) := by
  have h0 := h 0 (by decide)
  have h1 := h 1 (by decide)
  have h2 := h 2 (by decide)
  show connectFor o [0, 1, 2] = .error (err 2)
  simp [connectFor, h0, h1, h2]

/-! ## Claim theorems -/

/-- C2: `GridLayer` construction with numeric `limits=[[0,10],[0,20]]`
and `npoints=[2,2]` does NOT succeed: the dtype guard of
`_validate_limits` (`not issubdtype(floating) or not issubdtype(integer)`)
is true for every dtype — float and integer alike — so validation raises
for every input, contradicting its own error message, while
`_validate_npoints` accepts `[2,2]` (the failure is precisely the limits
dtype guard); the point-matrix generator, run on those limits directly,
would produce exactly the 4 claimed points in axis-major order with a
trailing per-axis coordinate pair. -/
theorem gridlayer_numeric_limits_code_bug :
    (∀ dt : NpDtype, ∃ msg, validate_limits dt 2 [[0, 10], [0, 20]] = .error msg)
    ∧ validate_limits .float64 2 [[0, 10], [0, 20]]
      = .error "limits dtype: expected an integer or float dtype"
    ∧ validate_npoints .int32 2 [2, 2] = .ok [2, 2]
    ∧ generate_point_matrix [[0, 10], [0, 20]] [2, 2]
      = [[0, 0], [0, 20], [10, 0], [10, 20]] := by
  refine ⟨fun dt => ?_, rfl, rfl, ?_⟩
  · cases dt <;> exact ⟨_, rfl⟩
  · norm_num [generate_point_matrix, grid_axes, np_linspace, cart_prod,
      list_range_two, int_toNat_two]

/-- C4 counterexample: the decode of `"RPF"` is not the flag record the
claim asserts — the letter `F` sets `moving` (and `P` sets
`in_position`), so `moving = true`, not `false`. -/
theorem decode_RPF_counterexample :
    decodeStatus "RPF" ≠
      { alarm := false, enabled := true, fault := false, moving := false,
        homing := false, jogging := false, motion_in_progress := false,
        in_position := false, stopping := false, waiting := false }
    ∧ (decodeStatus "RPF").moving = true := by
  exact ⟨by decide, by decide⟩

/-- C4 amended: decoding `"RPF"` yields `enabled = true`,
`moving = true`, `in_position = true`, `fault = false` and every other
flag false; and for every status string, `retrieve_motor_status` performs
the alarm-detail lookup exactly when the string contains `A`, folding the
alarm message into the same single status update. -/
theorem decode_RPF_and_alarm_lookup :
    decodeStatus "RPF" =
      { alarm := false, enabled := true, fault := false, moving := true,
        homing := false, jogging := false, motion_in_progress := false,
        in_position := true, stopping := false, waiting := false }
    ∧ ∀ (s : String) (pos : ℤ) (msg : String),
        (retrieve_motor_status s pos msg).alarmLookups
          = (if 'A' ∈ s.toList then 1 else 0)
        ∧ (retrieve_motor_status s pos msg).alarm_message
          = (if 'A' ∈ s.toList then some msg else none) := by
  refine ⟨by decide, fun s pos msg => ?_⟩
  by_cases h : 'A' ∈ s.toList <;>
    simp [retrieve_motor_status, decodeStatus_alarm, h]

/-- C5: the foreground-send reconnect policy of `_send_raw_command` /
`connect`: at most one reconnect-and-resend cycle ever happens, and
exactly one when the first send hits a connection error; the reconnect
loop consults at most `max_connection_attempts = 3` attempt outcomes; a
failure of the re-sent request propagates to the caller as-is (no second
cycle); and a reconnect whose 3 attempts all fail raises the last
attempt's error to the caller. -/
theorem send_reconnect_policy
    (envAny envA envB : SendEnv) (f1 f2 g : NetErr)
    (o o' : Nat → Except NetErr Unit) (err : Nat → NetErr)
    (hA1 : envA.firstSend = .error f1)
    (hA2 : motor_connect envA.connectOutcome = .ok ())
    (hA3 : envA.resend = .error g)
    (hB1 : envB.firstSend = .error f2)
    (hB2 : ∀ i, i < maxConnectionAttempts → envB.connectOutcome i = .error (err i))
    (hagree : ∀ i, i < maxConnectionAttempts → o i = o' i) :
    (send_raw_command envAny).reconnectCycles ≤ 1
    ∧ (send_raw_command envA).reconnectCycles = 1
    ∧ (send_raw_command envA).result = .error g
    ∧ motor_connect o = motor_connect o'
    ∧ motor_connect envB.connectOutcome = .error (err 2)
    ∧ (send_raw_command envB).result = .error (err 2)
    ∧ (send_raw_command envB).reconnectCycles = 1 := by
  have hBconn : motor_connect envB.connectOutcome = .error (err 2) :=
    motor_connect_all_fail _ _ hB2
  refine ⟨?_, ?_, ?_, motor_connect_congr o o' hagree, hBconn, ?_, ?_⟩
  · unfold send_raw_command
    cases envAny.firstSend with
    | ok u => simp
    | error e =>
      cases motor_connect envAny.connectOutcome with
      | error e2 => simp
      | ok u => cases envAny.resend <;> simp
  · simp [send_raw_command, hA1, hA2, hA3]
  · simp [send_raw_command, hA1, hA2, hA3]
  · simp [send_raw_command, hB1, hBconn]
  · simp [send_raw_command, hB1, hBconn]

/-- C5 witness: a concrete environment — scenario A: first send fails
with `reset`, reconnect succeeds, resend fails with `reset` (the resend
error reaches the caller); scenario B: every reconnect attempt times out
(the last `timeout` reaches the caller). -/
theorem send_reconnect_policy_witness :
    (send_raw_command
        { firstSend := .error .reset, connectOutcome := fun _ => .ok (),
          resend := .error .reset, recvData := "IP=1500" }).result
      = .error .reset
    ∧ motor_connect (fun _ => .error .timeout) = .error .timeout := by
  have h := send_reconnect_policy
    { firstSend := .ok (), connectOutcome := fun _ => .ok (),
      resend := .ok (), recvData := "" }
    { firstSend := .error .reset, connectOutcome := fun _ => .ok (),
      resend := .error .reset, recvData := "IP=1500" }
    { firstSend := .error .refused, connectOutcome := fun _ => .error .timeout,
      resend := .ok (), recvData := "" }
    .reset .refused .reset (fun _ => .ok ()) (fun _ => .ok ())
    (fun _ => .timeout)
    rfl rfl rfl rfl (fun i _ => rfl) (fun i _ => rfl)
  exact ⟨h.2.2.1, h.2.2.2.2.1⟩

/-- C6: `GridCNStepLayer(center=[0,0], npoints=[3,3], step_size=[1,1])`
derives limits `[[-1,1],[-1,1]]` exactly as
`center ± 0.5·(npoints−1)·step_size`, and the shared point-matrix
generator run on the derived limits produces exactly the points a
`GridLayer` with those explicit limits produces — but the actual
construction raises, because `_validate_limits`'s dtype guard rejects the
derived float64 limits like every other input. -/
theorem cnstep_grid_equivalence_eval :
    cnstep_derive_limits [0, 0] [3, 3] [1, 1] = [[-1, 1], [-1, 1]]
    ∧ generate_point_matrix (cnstep_derive_limits [0, 0] [3, 3] [1, 1]) [3, 3]
        = generate_point_matrix [[-1, 1], [-1, 1]] [3, 3]
    ∧ generate_point_matrix [[-1, 1], [-1, 1]] [3, 3]
        = [[-1, -1], [-1, 0], [-1, 1], [0, -1], [0, 0], [0, 1],
           [1, -1], [1, 0], [1, 1]]
    ∧ validate_limits .float64 2 (cnstep_derive_limits [0, 0] [3, 3] [1, 1])
        = .error "limits dtype: expected an integer or float dtype" := by
  have hlim : cnstep_derive_limits [0, 0] [3, 3] [1, 1] = [[-1, 1], [-1, 1]] := by
    norm_num [cnstep_derive_limits]
  refine ⟨hlim, by rw [hlim], ?_, by rw [hlim]; rfl⟩
  norm_num [generate_point_matrix, grid_axes, np_linspace, cart_prod,
    list_range_three, int_toNat_three]

/-- C7 counterexample: constructing a `GridLayer` with
`limits=[[5,5],[0,10]]` does not succeed — `_validate_limits` raises (its
dtype guard rejects every input, and its equal-pairs branch deliberately
rejects `min == max` rows as well). -/
theorem gridlayer_degenerate_counterexample :
    validate_limits .float64 2 [[5, 5], [0, 10]]
      = .error "limits dtype: expected an integer or float dtype" := rfl

/-- C7 amended: `GridLayer` construction with `limits=[[5,5],[0,10]]`
fails validation for every dtype (the source's `_validate_limits`
explicitly rejects equal `(min, max)` pairs, and its dtype guard rejects
every input outright); the point-matrix generator, run directly on those
limits, does collapse the degenerate first axis to exactly 1 point at
value 5. -/
theorem gridlayer_degenerate_amended :
    (∀ dt : NpDtype, ∃ msg, validate_limits dt 2 [[5, 5], [0, 10]] = .error msg)
    ∧ grid_axes [[5, 5], [0, 10]] [2, 2] = [[5], [0, 10]]
    ∧ generate_point_matrix [[5, 5], [0, 10]] [2, 2] = [[5, 0], [5, 10]] := by
  refine ⟨fun dt => ?_, ?_, ?_⟩
  · cases dt <;> exact ⟨_, rfl⟩
  · norm_num [grid_axes, np_linspace, list_range_two, int_toNat_two]
  · norm_num [generate_point_matrix, grid_axes, np_linspace, cart_prod,
      list_range_two, int_toNat_two]

/-- C8 counterexample: the status-change event payload is the constant
flag `True`, not the changed-fields set — two updates with different
changed-field sets emit identical payloads, so a listener cannot learn
which fields changed from the event. -/
theorem update_status_payload_counterexample :
    (update_status [("position", .pyint 1)] [("position", .pyint 2)]).emitted
      = (update_status [("moving", .pybool false)] [("moving", .pybool true)]).emitted
    ∧ changedFields [("position", .pyint 1)] [("position", .pyint 2)]
        ≠ changedFields [("moving", .pybool false)] [("moving", .pybool true)]
    ∧ (update_status [("position", .pyint 1)] [("position", .pyint 2)]).emitted
        = [true] := by
  exact ⟨by decide, by decide, by decide⟩

/-- C8 amended: on every status update the merged fields are compared
with the previous ones; no event is emitted when nothing differs, and
exactly one event is emitted when at least one field differs — but its
payload is the constant `True` (the changed-fields set is only logged,
never delivered to listeners). -/
theorem update_status_amended (old upd : StatusDict) :
    ((update_status old upd).emitted = []
      ∨ (update_status old upd).emitted = [true])
    ∧ ((update_status old upd).emitted = []
        ↔ ∀ kv ∈ dictMerge old upd, dictGet old kv.1 = some kv.2)
    ∧ (update_status old upd).newStatus = dictMerge old upd := by
  have hiff := changedFields_eq_nil_iff old upd
  rcases hc : changedFields old upd with _ | ⟨kv0, rest⟩
  · rw [hc] at hiff
    have hemit : (update_status old upd).emitted = [] := by
      simp [update_status, hc]
    exact ⟨Or.inl hemit, ⟨fun _ => hiff.mp rfl, fun _ => hemit⟩, rfl⟩
  · rw [hc] at hiff
    have hemit : (update_status old upd).emitted = [true] := by
      simp [update_status, hc]
    refine ⟨Or.inr hemit, ⟨?_, ?_⟩, rfl⟩
    · intro hnil
      rw [hemit] at hnil
      cases hnil
    · intro hforall
      exact absurd (hiff.mpr hforall) (by simp)

/-- C9: the cone-angle guard of `LaPDXYExclusion._validate_inputs` is the
chained comparison `0 <= cone_full_angle >= 180`, which rejects only
angles `≥ 180`: a cone angle of `0` (or a negative one) is accepted and a
mask would be generated, contradicting the documented `(0, 180)` range;
the port-location side does behave as claimed (`"E"` translates to 0, and
angles outside `(-180, 360)` are rejected). -/
theorem lapdxy_exclusion_cone_guard_eval :
    validate_lapdxy_exclusion 100 58 (.angle 0) 0 true
      = .ok { diameter := 100, pivot_radius := some 58,
              port_location := some 0, cone_full_angle := some 0 }
    ∧ validate_lapdxy_exclusion 100 58 (.angle 0) (-5) true
      = .ok { diameter := 100, pivot_radius := some 58,
              port_location := some 0, cone_full_angle := some (-5) }
    ∧ validate_lapdxy_exclusion 100 58 (.angle 0) 190 true
      = .error "cone_full_angle rejected"
    ∧ validate_lapdxy_exclusion 100 58 (.token "E") 40 true
      = .ok { diameter := 100, pivot_radius := some 58,
              port_location := some 0, cone_full_angle := some 40 }
    ∧ validate_lapdxy_exclusion 100 58 (.angle 360) 40 true
      = .error "The angular port location is out of the range -180 to 360 degrees" := by
  have hfind : (port_location_to_angle.find? fun kv => kv.1 == strLower "E").map (·.2)
      = some 0 := by decide
  refine ⟨?_, ?_, ?_, ?_, ?_⟩ <;>
    norm_num [validate_lapdxy_exclusion, hfind]

/-- The distance coercion of `LaPDXYTransform._validate_inputs` equals
the absolute value. -/
theorem coerce_distance_eq_abs (v : ℚ) : coerce_distance v = |v| := by
  unfold coerce_distance
  split_ifs with h
  · rfl
  · exact (abs_of_nonneg (le_of_not_lt h)).symm

/-- C10: for any numeric values of the three distances — negative ones
included — `LaPDXYTransform._validate_inputs` never raises on their
account: each negative distance is coerced to its absolute value, so all
three stored distances are non-negative (given polarity vectors that pass
their own check). -/
theorem transform_distance_coercion (ptc p2d pao : ℚ) (dpol mpol : ℚ × ℚ)
    (hd : polarity_ok dpol = true) (hm : polarity_ok mpol = true) :
    validate_lapdxy_transform ptc p2d pao dpol mpol =
      .ok { pivot_to_center := |ptc|, pivot_to_drive := |p2d|,
            probe_axis_offset := |pao|, drive_polarity := dpol,
            mspace_polarity := mpol }
    ∧ (0:ℚ) ≤ |ptc| ∧ (0:ℚ) ≤ |p2d| ∧ (0:ℚ) ≤ |pao| := by
  refine ⟨?_, abs_nonneg _, abs_nonneg _, abs_nonneg _⟩
  simp [validate_lapdxy_transform, hd, hm, coerce_distance_eq_abs]

/-- C10 witness: all three distances negative, valid polarities. -/
theorem transform_distance_coercion_witness :
    validate_lapdxy_transform (-1) (-2) (-3) (1, -1) (-1, 1) =
      .ok { pivot_to_center := 1, pivot_to_drive := 2,
            probe_axis_offset := 3, drive_polarity := (1, -1),
            mspace_polarity := (-1, 1) } := by
  have h := (transform_distance_coercion (-1) (-2) (-3) (1, -1) (-1, 1)
    (by norm_num [polarity_ok]) (by norm_num [polarity_ok])).1
  norm_num at h
  exact h

/-! ## LaPDXYTransform round trip (C1, C3) -/

/-- Closed form of `to_drive`: the polarity-corrected translation-along-
shaft and cross-axis components of `_matrix_to_drive` applied to the
homogeneous point. -/
theorem to_drive_eval (T : LaPDXYTransform) (x y : ℝ) :
    to_drive T x y =
      (T.drive_polarity.1 * (Real.sqrt ((T.mspace_polarity.2 * y) ^ 2
          + (T.pivot_to_center + T.mspace_polarity.1 * x) ^ 2) - T.pivot_to_center),
       T.drive_polarity.2 * (T.pivot_to_drive * Real.tan (thetaToDrive T x y)
          + T.probe_axis_offset * (1 - 1 / Real.cos (thetaToDrive T x y)))) := by
  simp only [to_drive, matrix_to_drive, Mat3.mul, diagMat3, Mat3.applyHom,
    Prod.mk.injEq]
  constructor <;> ring

/-- Closed form of `to_motion_space`: the polarity-corrected
rotation-plus-translation of `_matrix_to_motion_space` applied to the
homogeneous point. -/
theorem to_motion_space_eval (T : LaPDXYTransform) (e0 e1 : ℝ) :
    to_motion_space T e0 e1 =
      (T.mspace_polarity.1 * ((T.drive_polarity.1 * e0)
          * Real.cos (thetaToMotionSpace T e0 e1)
          - T.pivot_to_center * (1 - Real.cos (thetaToMotionSpace T e0 e1))),
       T.mspace_polarity.2 * ((T.drive_polarity.1 * e0)
          * Real.sin (thetaToMotionSpace T e0 e1)
          + T.pivot_to_center * Real.sin (thetaToMotionSpace T e0 e1))) := by
  simp only [to_motion_space, matrix_to_motion_space, Mat3.mul, diagMat3,
    Mat3.applyHom, Prod.mk.injEq]
  constructor <;> ring

/-- The inverse-side angle reconstruction: for a shaft angle
`phi ∈ (-π/2, π/2)` and the drive-side value
`t = tan phi + (pao/p2d)/cos phi`, the angle
`arctan t - arcsin (pao / (p2d·√(1+t²)))` computed by
`_matrix_to_motion_space` recovers `phi`, provided the probe-axis offset
satisfies `pao·sin phi ≥ -p2d` (the shaft stays within a quarter turn of
the drive axis). -/
theorem roundtrip_angle_identity (phi pao p2d t : ℝ)
    (hphi1 : -(Real.pi / 2) < phi) (hphi2 : phi < Real.pi / 2)
    (hpao : 0 ≤ pao) (hp2d : 0 < p2d)
    (hcone : -p2d ≤ pao * Real.sin phi)
    (ht : t = Real.tan phi + (pao / p2d) / Real.cos phi) :
    Real.arctan t - Real.arcsin (pao / (p2d * Real.sqrt (1 + t ^ 2))) = phi := by
  have hcos : 0 < Real.cos phi := Real.cos_pos_of_mem_Ioo ⟨hphi1, hphi2⟩
  have hsqrt_pos : 0 < Real.sqrt (1 + t ^ 2) := by positivity
  have htcos : t * Real.cos phi = Real.sin phi + pao / p2d := by
    rw [ht, Real.tan_eq_sin_div_cos]
    field_simp
    ring
  have hnum : t * Real.cos phi - Real.sin phi = pao / p2d := by linarith
  have hsin_sub : Real.sin (Real.arctan t - phi)
      = pao / (p2d * Real.sqrt (1 + t ^ 2)) := by
    rw [Real.sin_sub, Real.sin_arctan, Real.cos_arctan]
    have hre : t / Real.sqrt (1 + t ^ 2) * Real.cos phi
        - 1 / Real.sqrt (1 + t ^ 2) * Real.sin phi
        = (t * Real.cos phi - Real.sin phi) / Real.sqrt (1 + t ^ 2) := by
      ring
    rw [hre, hnum, div_div]
  have hlb : phi ≤ Real.arctan t := by
    have h1 : Real.tan phi ≤ t := by
      rw [ht]
      have h2 : 0 ≤ (pao / p2d) / Real.cos phi := by positivity
      linarith
    calc phi = Real.arctan (Real.tan phi) := (Real.arctan_tan hphi1 hphi2).symm
    _ ≤ Real.arctan t := Real.arctan_strictMono.monotone h1
  have hub : Real.arctan t - phi ≤ Real.pi / 2 := by
    by_cases hphi0 : 0 ≤ phi
    · have h3 := Real.arctan_lt_pi_div_two t
      linarith
    · push_neg at hphi0
      have hsinneg : Real.sin phi < 0 :=
        Real.sin_neg_of_neg_of_neg_pi_lt hphi0 (by linarith [Real.pi_pos])
      have hsin_ne : Real.sin phi ≠ 0 := ne_of_lt hsinneg
      have hk : -1 ≤ pao / p2d * Real.sin phi := by
        rw [div_mul_eq_mul_div, le_div_iff hp2d]
        linarith
      have hkey : 0 ≤ Real.cos phi + t * Real.sin phi := by
        have e1 : Real.cos phi * (Real.cos phi + t * Real.sin phi)
            = 1 + pao / p2d * Real.sin phi := by
          calc Real.cos phi * (Real.cos phi + t * Real.sin phi)
              = Real.cos phi ^ 2 + (t * Real.cos phi) * Real.sin phi := by ring
          _ = Real.cos phi ^ 2 + (Real.sin phi + pao / p2d) * Real.sin phi := by
              rw [htcos]
          _ = Real.sin phi ^ 2 + Real.cos phi ^ 2 + pao / p2d * Real.sin phi := by
              ring
          _ = 1 + pao / p2d * Real.sin phi := by rw [Real.sin_sq_add_cos_sq]
        nlinarith [hk, hcos]
      have htan_val : Real.tan (phi + Real.pi / 2)
          = Real.cos phi / (-Real.sin phi) := by
        rw [show phi + Real.pi / 2 = Real.pi / 2 - (-phi) by ring,
          Real.tan_pi_div_two_sub, Real.tan_neg, Real.tan_eq_sin_div_cos]
        field_simp
      have hcmp : t ≤ Real.tan (phi + Real.pi / 2) := by
        rw [htan_val, le_div_iff (by linarith : (0:ℝ) < -Real.sin phi)]
        nlinarith [hkey]
      have harc : Real.arctan (Real.tan (phi + Real.pi / 2)) = phi + Real.pi / 2 :=
        Real.arctan_tan (by linarith [Real.pi_pos]) (by linarith)
      have h4 : Real.arctan t ≤ phi + Real.pi / 2 := by
        calc Real.arctan t ≤ Real.arctan (Real.tan (phi + Real.pi / 2)) :=
              Real.arctan_strictMono.monotone hcmp
        _ = phi + Real.pi / 2 := harc
      linarith
  have harcsin : Real.arcsin (pao / (p2d * Real.sqrt (1 + t ^ 2)))
      = Real.arctan t - phi := by
    rw [← hsin_sub]
    exact Real.arcsin_sin (by linarith [Real.pi_pos]) hub
  rw [harcsin]
  ring

/-- The round-trip law over an explicit scalar configuration: polarity
entries squaring to 1, `pivot_to_drive > 0`, `probe_axis_offset ≥ 0`, a
point on the chamber side of the pivot (`m0·x + pivot_to_center > 0`)
whose shaft angle stays within a quarter turn of the drive axis. -/
theorem lapd_roundtrip_core (ptc p2d pao m0 m1 d0 d1 x y : ℝ)
    (hm0 : m0 * m0 = 1) (hm1 : m1 * m1 = 1)
    (hd0 : d0 * d0 = 1) (hd1 : d1 * d1 = 1)
    (hp2d : 0 < p2d) (hpao : 0 ≤ pao)
    (hX : 0 < m0 * x + ptc)
    (hcone : 0 ≤ pao * (m1 * y)
        + p2d * Real.sqrt ((m1 * y) ^ 2 + (ptc + m0 * x) ^ 2)) :
    to_motion_space ⟨ptc, p2d, pao, (d0, d1), (m0, m1)⟩
        (to_drive ⟨ptc, p2d, pao, (d0, d1), (m0, m1)⟩ x y).1
        (to_drive ⟨ptc, p2d, pao, (d0, d1), (m0, m1)⟩ x y).2 = (x, y) := by
  have hSne : m0 * x + ptc ≠ 0 := ne_of_gt hX
  have hr2 : (m1 * y) ^ 2 + (ptc + m0 * x) ^ 2
      = (m0 * x + ptc) ^ 2 * (1 + (m1 * y / (m0 * x + ptc)) ^ 2) := by
    field_simp
    ring
  have hrval : Real.sqrt ((m1 * y) ^ 2 + (ptc + m0 * x) ^ 2)
      = (m0 * x + ptc) * Real.sqrt (1 + (m1 * y / (m0 * x + ptc)) ^ 2) := by
    rw [hr2, Real.sqrt_mul (sq_nonneg _), Real.sqrt_sq hX.le]
  have hrpos : 0 < Real.sqrt ((m1 * y) ^ 2 + (ptc + m0 * x) ^ 2) := by
    rw [hrval]
    positivity
  have hthD : thetaToDrive ⟨ptc, p2d, pao, (d0, d1), (m0, m1)⟩ x y
      = -Real.arctan (m1 * y / (m0 * x + ptc)) := rfl
  have hthM : ∀ e0 e1 : ℝ,
      thetaToMotionSpace ⟨ptc, p2d, pao, (d0, d1), (m0, m1)⟩ e0 e1
        = Real.arctan ((-pao + d1 * e1) / -p2d)
          - Real.arcsin (pao / Real.sqrt (p2d ^ 2 + (-pao + d1 * e1) ^ 2)) :=
    fun _ _ => rfl
  rw [to_motion_space_eval, to_drive_eval]
  dsimp only
  rw [hthD, Real.tan_neg, Real.cos_neg, hthM]
  set r := Real.sqrt ((m1 * y) ^ 2 + (ptc + m0 * x) ^ 2) with hrdef
  set phi := Real.arctan (m1 * y / (m0 * x + ptc)) with hphidef
  have hphi1 : -(Real.pi / 2) < phi := Real.neg_pi_div_two_lt_arctan _
  have hphi2 : phi < Real.pi / 2 := Real.arctan_lt_pi_div_two _
  have hcospos : 0 < Real.cos phi := Real.cos_arctan_pos _
  have hcosne : Real.cos phi ≠ 0 := ne_of_gt hcospos
  have hrne : r ≠ 0 := ne_of_gt hrpos
  have hcos_val : Real.cos phi = (m0 * x + ptc) / r := by
    rw [hphidef, Real.cos_arctan, hrval, ← div_div, div_self hSne]
  have hsin_val : Real.sin phi = m1 * y / r := by
    rw [hphidef, Real.sin_arctan, hrval, ← div_div]
  set t := Real.tan phi + (pao / p2d) / Real.cos phi with htdef
  have harg : -pao + d1 * (d1 * (p2d * -Real.tan phi
      + pao * (1 - 1 / Real.cos phi))) = -p2d * t := by
    rw [← mul_assoc, hd1, one_mul, htdef]
    field_simp
    ring
  rw [harg]
  have hdiv : -p2d * t / -p2d = t := by
    field_simp
  have hsqA : Real.sqrt (p2d ^ 2 + (-p2d * t) ^ 2)
      = p2d * Real.sqrt (1 + t ^ 2) := by
    rw [show p2d ^ 2 + (-p2d * t) ^ 2 = p2d ^ 2 * (1 + t ^ 2) by ring,
      Real.sqrt_mul (sq_nonneg _), Real.sqrt_sq hp2d.le]
  rw [hdiv, hsqA]
  have hcone2 : -p2d ≤ pao * Real.sin phi := by
    rw [hsin_val]
    rw [show pao * (m1 * y / r) = pao * (m1 * y) / r by ring]
    rw [le_div_iff hrpos]
    linarith
  have hangle : Real.arctan t
      - Real.arcsin (pao / (p2d * Real.sqrt (1 + t ^ 2))) = phi :=
    roundtrip_angle_identity phi pao p2d t hphi1 hphi2 hpao hp2d hcone2 htdef
  rw [hangle]
  have hd0e : d0 * (d0 * (r - ptc)) = r - ptc := by
    rw [← mul_assoc, hd0, one_mul]
  rw [hd0e, hcos_val, hsin_val, Prod.mk.injEq]
  constructor
  · field_simp
    linear_combination (r * x) * hm0
  · field_simp
    linear_combination (r * y) * hm1

/-- C1 amended: for every valid `LaPDXYTransform` configuration
(non-negative distances, `pivot_to_drive > 0`, polarity entries `±1`) and
every point that, after the mspace-polarity flip, lies strictly on the
chamber side of the pivot (`m0·x + pivot_to_center > 0`) with
`pao·(m1·y) + p2d·r ≥ 0` (the shaft angle within a quarter turn of the
drive axis), applying `_matrix_to_drive` and then
`_matrix_to_motion_space` returns the point exactly.  (As stated over all
non-pivot points the claim is false — see the counterexample.) -/
theorem lapd_roundtrip_amended (T : LaPDXYTransform) (x y : ℝ)
    (hdp : PolarityValid T.drive_polarity)
    (hmp : PolarityValid T.mspace_polarity)
    (hptc : 0 ≤ T.pivot_to_center)
    (hp2d : 0 < T.pivot_to_drive)
    (hpao : 0 ≤ T.probe_axis_offset)
    (hX : 0 < T.mspace_polarity.1 * x + T.pivot_to_center)
    (hcone : 0 ≤ T.probe_axis_offset * (T.mspace_polarity.2 * y)
        + T.pivot_to_drive * Real.sqrt ((T.mspace_polarity.2 * y) ^ 2
            + (T.pivot_to_center + T.mspace_polarity.1 * x) ^ 2)) :
    to_motion_space T (to_drive T x y).1 (to_drive T x y).2 = (x, y) := by
  obtain ⟨ptc, p2d, pao, ⟨d0, d1⟩, ⟨m0, m1⟩⟩ := T
  have sq : ∀ a : ℝ, (a = 1 ∨ a = -1) → a * a = 1 := by
    rintro a (rfl | rfl) <;> norm_num
  exact lapd_roundtrip_core ptc p2d pao m0 m1 d0 d1 x y
    (sq _ hmp.1) (sq _ hmp.2) (sq _ hdp.1) (sq _ hdp.2) hp2d hpao hX hcone

/-- C1 witness: a valid configuration and an on-axis interior point. -/
theorem lapd_roundtrip_amended_witness :
    to_motion_space ⟨1, 1, 0, (1, 1), (1, 1)⟩
        (to_drive ⟨1, 1, 0, (1, 1), (1, 1)⟩ 1 0).1
        (to_drive ⟨1, 1, 0, (1, 1), (1, 1)⟩ 1 0).2 = (1, 0) :=
  lapd_roundtrip_amended ⟨1, 1, 0, (1, 1), (1, 1)⟩ 1 0
    ⟨Or.inl rfl, Or.inl rfl⟩ ⟨Or.inl rfl, Or.inl rfl⟩
    (by show (0:ℝ) ≤ 1; norm_num)
    (by show (0:ℝ) < 1; norm_num)
    (by show (0:ℝ) ≤ 0; norm_num)
    (by show (0:ℝ) < 1 * 1 + 1; norm_num)
    (by show (0:ℝ) ≤ 0 * (1 * 0) + 1 * Real.sqrt ((1 * 0) ^ 2 + (1 + 1 * 1) ^ 2)
        positivity)

/-- C1 counterexample: with the valid configuration
`pivot_to_center = 1`, `pivot_to_drive = 1`, `probe_axis_offset = 0` and
all polarities `+1`, the non-pivot point `(-3, 0)` (which lies beyond the
pivot, `x + pivot_to_center = -2 < 0`) round-trips to `(1, 0) ≠ (-3, 0)`:
the one-argument `arctan` collapses the quadrant, so the round-trip law
fails there. -/
theorem lapd_roundtrip_counterexample :
    to_motion_space ⟨1, 1, 0, (1, 1), (1, 1)⟩
        (to_drive ⟨1, 1, 0, (1, 1), (1, 1)⟩ (-3) 0).1
        (to_drive ⟨1, 1, 0, (1, 1), (1, 1)⟩ (-3) 0).2 = (1, 0)
    ∧ ((1 : ℝ), (0 : ℝ)) ≠ (((-3) : ℝ), (0 : ℝ)) := by
  have h4 : Real.sqrt 4 = 2 := by
    rw [show (4:ℝ) = 2 ^ 2 by norm_num, Real.sqrt_sq (by norm_num : (0:ℝ) ≤ 2)]
  have hth : thetaToDrive ⟨1, 1, 0, (1, 1), (1, 1)⟩ (-3) 0 = 0 := by
    show -Real.arctan ((1 * 0) / (1 * (-3) + 1)) = 0
    norm_num [Real.arctan_zero]
  have hdrive : to_drive ⟨1, 1, 0, (1, 1), (1, 1)⟩ (-3) 0 = (1, 0) := by
    rw [to_drive_eval]
    dsimp only
    rw [hth]
    norm_num [Real.tan_zero, Real.cos_zero, h4]
  have hth2 : thetaToMotionSpace ⟨1, 1, 0, (1, 1), (1, 1)⟩ 1 0 = 0 := by
    show Real.arctan ((-0 + 1 * 0) / -1)
        - Real.arcsin (0 / Real.sqrt (1 ^ 2 + (-0 + 1 * 0) ^ 2)) = 0
    norm_num [Real.arctan_zero, Real.arcsin_zero]
  have hms : to_motion_space ⟨1, 1, 0, (1, 1), (1, 1)⟩ 1 0 = (1, 0) := by
    rw [to_motion_space_eval]
    dsimp only
    rw [hth2]
    norm_num [Real.cos_zero, Real.sin_zero]
  refine ⟨?_, by norm_num [Prod.ext_iff]⟩
  rw [hdrive]
  exact hms

/-- C3 counterexample: with `pivot_to_center = 1` and identity
polarities, at the point `(-2, 1)` (where `x + pivot_to_center = -1 < 0`)
the code's `theta = -arctan(y/(x+ptc)) = π/4` differs from
`-atan2(y, x+ptc) = π/4 - π`: the one-argument arctangent is not
quadrant-aware. -/
theorem lapd_theta_counterexample :
    thetaToDrive ⟨1, 1, 0, (1, 1), (1, 1)⟩ (-2) 1
      ≠ -atan2 (1 * 1) (1 * (-2) + 1) := by
  have hL : thetaToDrive ⟨1, 1, 0, (1, 1), (1, 1)⟩ (-2) 1 = Real.pi / 4 := by
    show -Real.arctan ((1 * 1) / (1 * (-2) + 1)) = Real.pi / 4
    norm_num [Real.arctan_neg, Real.arctan_one]
  have hR : atan2 ((1:ℝ) * 1) (1 * (-2) + 1) = -(Real.pi / 4) + Real.pi := by
    unfold atan2
    rw [if_neg (by norm_num), if_pos (by norm_num :
      ((1:ℝ) * (-2) + 1) < 0 ∧ (0:ℝ) ≤ 1 * 1)]
    norm_num [Real.arctan_neg, Real.arctan_one]
  rw [hL, hR]
  intro h
  have hpi := Real.pi_pos
  linarith

/-- C3 amended: the code computes `theta = -arctan(y / (x + ptc))` with
the one-argument arctangent (after the mspace-polarity flip); this agrees
with the quadrant-aware `-atan2(y, x + ptc)` exactly when
`x + pivot_to_center > 0`, i.e. on the chamber side of the pivot. -/
theorem lapd_theta_matches_atan2 (T : LaPDXYTransform) (x y : ℝ)
    (hx : 0 < T.mspace_polarity.1 * x + T.pivot_to_center) :
    thetaToDrive T x y
      = -atan2 (T.mspace_polarity.2 * y)
          (T.mspace_polarity.1 * x + T.pivot_to_center) := by
  have h : thetaToDrive T x y
      = -Real.arctan ((T.mspace_polarity.2 * y)
          / (T.mspace_polarity.1 * x + T.pivot_to_center)) := rfl
  rw [h]
  unfold atan2
  rw [if_pos hx]

/-- C3 witness: at the origin with `pivot_to_center = 1`, both angle
formulas give 0. -/
theorem lapd_theta_matches_atan2_witness :
    thetaToDrive ⟨1, 1, 0, (1, 1), (1, 1)⟩ 0 0
      = -atan2 (1 * 0) (1 * 0 + 1) :=
  lapd_theta_matches_atan2 ⟨1, 1, 0, (1, 1), (1, 1)⟩ 0 0
    (by show (0:ℝ) < 1 * 0 + 1; norm_num)

end BapsfMotion
